import Mathlib

/-!
Verification development for the Blockza Directory MCP server
(`src/index.ts`).  The upstream HTTP exchange is abstracted into an
explicit `Fetched` input: each client method of `BlockzaAPIClient`
becomes a pure function of the outcome of its single `fetch` call, and
each tool/resource/prompt handler becomes a pure function of its
arguments and of the fetch outcomes of the client calls it makes.
String templates that merely interpolate data into fixed prose are
abstracted into structured payloads carrying exactly the interpolated
data; all branching logic is translated verbatim.
-/

namespace Blockza

/-! ## Data model (the TypeScript interfaces) -/

/-- Interface `SocialLinks`. -/
structure SocialLinks where
  facebook : String
  linkedin : String
  telegram : String
  twitter : String
  youtube : String
deriving DecidableEq

/-- Interface `PromotionSettings`. -/
structure PromotionSettings where
  hasAffiliateProgram : Bool
  interestedInBusinessPartnership : Bool
deriving DecidableEq

/-- Interface `TeamMember`.  JS numbers are modelled as integers. -/
structure TeamMember where
  _id : String
  name : String
  title : String
  email : String
  image : String
  linkedinUrl : String
  price : Int
  bookingMethods : List String
  status : String
  followers : Int
  responseRate : Int
deriving DecidableEq

/-- Interface `Company`. -/
structure Company where
  _id : String
  name : String
  slug : String
  shortDescription : String
  detail : String
  category : String
  logo : String
  banner : String
  founderName : String
  founderDetails : String
  founderEmail : String
  founderImage : String
  verificationStatus : String
  url : String
  isPromoted : Bool
  likes : Int
  views : Int
  socialLinks : SocialLinks
  promotionSettings : PromotionSettings
  teamMembers : List TeamMember
  createdAt : String
  updatedAt : String
  followerPrice : Int
  founderFollowers : Int
  founderResponseRate : Int
deriving DecidableEq

/-- Interface `ApiResponse`: the companies endpoint envelope
`{success: bool, data: Company[]}`. -/
structure ApiResponse where
  success : Bool
  data : List Company
deriving DecidableEq

/-- Interface `EventSocialLinks`. -/
structure EventSocialLinks where
  linkedin : String
  telegram : String
  twitter : String
  instagram : String
deriving DecidableEq

/-- Interface `Event`. -/
structure Event where
  _id : String
  title : String
  company : String
  description : String
  location : String
  country : String
  city : String
  eventStartDate : String
  eventEndDate : String
  category : String
  website : String
  featuredImage : String
  socialLinks : EventSocialLinks
  createdAt : String
  updatedAt : String
  __v : Int
deriving DecidableEq

/-! ## The abstract HTTP exchange

One `fetch` round trip, as observed by the client code: the promise can
reject (network failure), the response can be non-2xx (`!response.ok`),
`response.json()` can reject (malformed JSON), or a parsed body is
produced. -/

/-- Outcome of one `fetch` + `response.json()` round trip with parsed
body type `α`. -/
inductive Fetched (α : Type) where
  | netError (message : String)
  | httpError (status : Nat) (statusText : String)
  | jsonError (message : String)
  | body (value : α)
deriving DecidableEq

/-- Parsed JSON body of the events endpoint: the code only distinguishes
arrays (`Array.isArray(data)`) from any other well-formed JSON value. -/
inductive EventsBody where
  | arr (events : List Event)
  | nonArray
deriving DecidableEq

/-- Predicate: the fetch round trip failed (network error, non-2xx
status, or malformed JSON). -/
def fetchFailed : Fetched α → Bool
  | .netError _ => true
  | .httpError _ _ => true
  | .jsonError _ => true
  | .body _ => false

/-! ## JS coercion helpers -/

/-- JS truthiness of an optional string (`undefined` and `""` are falsy). -/
def truthyStr? : Option String → Bool
  | none => false
  | some s => !s.isEmpty

/-- JS truthiness of an optional number (`undefined` and `0` are falsy;
`NaN` is not modelled, the numbers here are integers). -/
def truthyInt? : Option Int → Bool
  | none => false
  | some n => n != 0

/-- JS `xs.slice(0, n)`: a nonnegative `n` keeps the first `n` elements,
a negative `n` counts the end index from the end of the array. -/
def jsSlice0 (n : Int) (xs : List α) : List α :=
  if 0 ≤ n then xs.take n.toNat else xs.take ((xs.length : Int) + n).toNat

/-- Handler truncation `limit ? xs.slice(0, limit) : xs` for
`limit : number | undefined`: both `undefined` and `0` are falsy, so
neither truncates. -/
def applyLimit (limit : Option Int) (xs : List α) : List α :=
  match limit with
  | none => xs
  | some l => if l = 0 then xs else jsSlice0 l xs

/-- Numeric value of a list of decimal digit characters. -/
def digitsVal (cs : List Char) : Nat :=
  cs.foldl (fun acc c => acc * 10 + (c.toNat - 48)) 0

/-- JS `parseInt(s, 10)`: skip leading whitespace, optional sign, then a
maximal digit prefix; `none` models `NaN` (no digits). -/
def jsParseInt10 (s : String) : Option Int :=
  let t := s.data.dropWhile Char.isWhitespace
  let signAndRest : Int × List Char :=
    match t with
    | '-' :: r => (-1, r)
    | '+' :: r => (1, r)
    | r => (1, r)
  let digits := signAndRest.2.takeWhile Char.isDigit
  if digits.isEmpty then none
  else some (signAndRest.1 * (digitsVal digits : Int))

/-- Splits a character list on `-` separators (the chunks of
`s.split("-")`). -/
def splitOnDash (cs : List Char) : List (List Char) :=
  match cs with
  | [] => [[]]
  | c :: rest =>
    let r := splitOnDash rest
    if c = '-' then [] :: r
    else
      match r with
      | [] => [[c]]
      | h :: t => (c :: h) :: t

/-- Decimal value of a non-empty all-digit chunk, else `none`. -/
def decDigits? (cs : List Char) : Option Nat :=
  if cs ≠ [] ∧ cs.all Char.isDigit then some (digitsVal cs) else none

/-- Modelled from the JS runtime: `new Date(s).getTime()` restricted to
ISO `YYYY-MM-DD` date-only strings.  Valid date strings are mapped
strictly monotonically onto the timeline; every other string yields
`none` (an `Invalid Date`, whose `getTime()` is `NaN`). -/
def jsDateParse (s : String) : Option Int :=
  match splitOnDash s.data with
  | [y, m, d] =>
    match decDigits? y, decDigits? m, decDigits? d with
    | some yn, some mn, some dn =>
      if y.length = 4 ∧ m.length = 2 ∧ d.length = 2 ∧
          1 ≤ mn ∧ mn ≤ 12 ∧ 1 ≤ dn ∧ dn ≤ 31 then
        some ((yn * 10000 + mn * 100 + dn : Nat) : Int)
      else none
    | _, _, _ => none
  | _ => none

/-- JS `new Date(s) > now`: comparisons against an `Invalid Date`
(`NaN`) are false. -/
def dateAfter (s : String) (now : Int) : Bool :=
  match jsDateParse s with
  | none => false
  | some t => decide (now < t)

/-! ## Upstream client query construction -/

/-- Optional parameters of `getCompanies`. -/
structure CompaniesParams where
  limit : Option Int
  category : Option String
  search : Option String
  verified : Option Bool
deriving DecidableEq

/-- Query string built by `getCompanies`: `limit`, `category` and
`search` are set only when truthy (`if (params?.limit) ...`), while
`verified` is set whenever it is not `undefined`
(`params?.verified !== undefined`). -/
def companiesQuery (p : CompaniesParams) : List (String × String) :=
  (if truthyInt? p.limit then [("limit", toString (p.limit.getD 0))] else [])
    ++ (if truthyStr? p.category then [("category", p.category.getD "")] else [])
    ++ (if truthyStr? p.search then [("search", p.search.getD "")] else [])
    ++ (match p.verified with
        | none => []
        | some b => [("verified", toString b)])

/-- Optional parameters of `getEvents`. -/
structure EventsParams where
  limit : Option Int
  category : Option String
  search : Option String
  country : Option String
  city : Option String
  upcoming : Option Bool
deriving DecidableEq

/-- Query string built by `getEvents`: all string/number parameters are
set only when truthy, `upcoming` whenever not `undefined`. -/
def eventsQuery (p : EventsParams) : List (String × String) :=
  (if truthyInt? p.limit then [("limit", toString (p.limit.getD 0))] else [])
    ++ (if truthyStr? p.category then [("category", p.category.getD "")] else [])
    ++ (if truthyStr? p.search then [("search", p.search.getD "")] else [])
    ++ (if truthyStr? p.country then [("country", p.country.getD "")] else [])
    ++ (if truthyStr? p.city then [("city", p.city.getD "")] else [])
    ++ (match p.upcoming with
        | none => []
        | some b => [("upcoming", toString b)])

/-! ## Upstream client operations (`BlockzaAPIClient`) -/

/-- `getCompanies`: a non-2xx response is thrown as
`HTTP ${status}: ${statusText}`; a `fetch` or `response.json()`
rejection is rethrown; otherwise the parsed envelope is returned as-is
(the `success` flag is NOT inspected here). -/
def getCompanies (r : Fetched ApiResponse) : Except String ApiResponse :=
  match r with
  | .netError m => .error m
  | .httpError status statusText =>
      .error ("HTTP " ++ toString status ++ ": " ++ statusText)
  | .jsonError m => .error m
  | .body b => .ok b

/-- `getEvents`: failures as in `getCompanies`; a parsed body that is
not an array is coerced to the empty list
(`Array.isArray(data) ? data : []`). -/
def getEvents (r : Fetched EventsBody) : Except String (List Event) :=
  match r with
  | .netError m => .error m
  | .httpError status statusText =>
      .error ("HTTP " ++ toString status ++ ": " ++ statusText)
  | .jsonError m => .error m
  | .body (.arr events) => .ok events
  | .body .nonArray => .ok []

/-- Query issued by `getCompanyBySlug slug`:
`getCompanies({search: slug})`. -/
def getCompanyBySlugQuery (slug : String) : List (String × String) :=
  companiesQuery ⟨none, none, some slug, none⟩

/-- `getCompanyBySlug`: searches via `getCompanies({search: slug})`,
prefers the exact slug match, falls back to the first search result
(`company || data.data[0] || null`), returns `null` when the search
yields nothing, and catches every client error as `null`. -/
def getCompanyBySlug (slug : String) (r : Fetched ApiResponse) : Option Company :=
  match getCompanies r with
  | .error _ => none
  | .ok data =>
    if data.success = true ∧ 0 < data.data.length then
      match data.data.find? (fun c => c.slug == slug) with
      | some c => some c
      | none => data.data.head?
    else none

/-- Query issued by `getCompaniesByCategory category`:
`getCompanies({category})`. -/
def getCompaniesByCategoryQuery (category : String) : List (String × String) :=
  companiesQuery ⟨none, some category, none, none⟩

/-- `getCompaniesByCategory`: `data.success ? data.data : []`, with every
client error caught as `[]`. -/
def getCompaniesByCategory (category : String) (r : Fetched ApiResponse) :
    List Company :=
  match getCompanies r with
  | .error _ => []
  | .ok data => if data.success then data.data else []

/-- `getEventById`: fetches the full list and selects by exact `_id`
equality; every client error is caught as `null`. -/
def getEventById (id : String) (r : Fetched EventsBody) : Option Event :=
  match getEvents r with
  | .error _ => none
  | .ok events => events.find? (fun e => e._id == id)

/-- `getEventsByCategory`: delegates to `getEvents({category})`; every
client error is caught as `[]`. -/
def getEventsByCategory (category : String) (r : Fetched EventsBody) :
    List Event :=
  match getEvents r with
  | .error _ => []
  | .ok events => events

/-- `getUpcomingEvents`: fetches the full list and filters by
`new Date(event.eventStartDate) > now`; every client error is caught
as `[]`. -/
def getUpcomingEvents (now : Int) (r : Fetched EventsBody) : List Event :=
  match getEvents r with
  | .error _ => []
  | .ok events => events.filter (fun e => dateAfter e.eventStartDate now)

/-- `getEventsByLocation`: delegates to `getEvents({country, city})`;
every client error is caught as `[]`. -/
def getEventsByLocation (country city : Option String) (r : Fetched EventsBody) :
    List Event :=
  match getEvents r with
  | .error _ => []
  | .ok events => events

/-- Query issued by `getEventsByLocation country city`. -/
def getEventsByLocationQuery (country city : Option String) :
    List (String × String) :=
  eventsQuery ⟨none, none, none, country, city, none⟩

/-! ## Handler result shapes

A tool handler returns `{content: [{type: "text", text}]}` with an
optional `isError: true` flag.  The success text interpolates a JSON
rendering of a payload (between fixed `..._DATA_START`/`..._DATA_END`
delimiters where the source uses them) plus a fixed summary sentence;
the JSON rendering is abstracted, so a result is either the structured
payload or the error text. -/

/-- Result of a tool handler: success payload, or `isError: true`
together with the error text. -/
inductive ToolResult (α : Type) where
  | ok (payload : α)
  | errorResult (text : String)
deriving DecidableEq

/-- Result of a resource handler: a document, or an
`{error: message}` document. -/
inductive ResourceResult (α : Type) where
  | doc (value : α)
  | errorDoc (text : String)
deriving DecidableEq

/-- Summary record produced by `search_companies` and
`get_companies_by_category`. -/
structure CompanySummary where
  _id : String
  name : String
  slug : String
  category : String
  shortDescription : String
  logo : String
  banner : String
  founderName : String
  verificationStatus : String
  url : String
  likes : Int
  views : Int
deriving DecidableEq

/-- Projection of a `Company` to its summary record. -/
def companySummary (c : Company) : CompanySummary :=
  ⟨c._id, c.name, c.slug, c.category, c.shortDescription, c.logo, c.banner,
    c.founderName, c.verificationStatus, c.url, c.likes, c.views⟩

/-- Summary record produced by the events tools that include the
category field (`get_upcoming_events`, `get_events_by_location`);
`location` is the interpolation `${city}, ${country}`. -/
structure EventSummary where
  id : String
  title : String
  company : String
  category : String
  location : String
  eventStartDate : String
  eventEndDate : String
  website : String
deriving DecidableEq

/-- Projection of an `Event` to its `EventSummary`. -/
def eventSummary (e : Event) : EventSummary :=
  ⟨e._id, e.title, e.company, e.category, e.city ++ ", " ++ e.country,
    e.eventStartDate, e.eventEndDate, e.website⟩

/-- Summary record produced by `get_events_by_category` (no category
field). -/
structure EventCategorySummary where
  id : String
  title : String
  company : String
  location : String
  eventStartDate : String
  eventEndDate : String
  website : String
deriving DecidableEq

/-- Projection of an `Event` to its `EventCategorySummary`. -/
def eventCategorySummary (e : Event) : EventCategorySummary :=
  ⟨e._id, e.title, e.company, e.city ++ ", " ++ e.country,
    e.eventStartDate, e.eventEndDate, e.website⟩

/-! ## Detail payloads -/

/-- `basic_info` block of the `get_company_details` payload. -/
structure CompanyBasicInfo where
  name : String
  slug : String
  category : String
  shortDescription : String
  detail : String
  logo : String
  banner : String
  url : String
  verificationStatus : String
deriving DecidableEq

/-- `founder` block of the `get_company_details` payload. -/
structure CompanyFounderInfo where
  name : String
  details : String
  email : String
  image : String
  followers : Int
  responseRate : Int
deriving DecidableEq

/-- `stats` block of the `get_company_details` payload. -/
structure CompanyStatsInfo where
  likes : Int
  views : Int
  followerPrice : Int
deriving DecidableEq

/-- Payload of `get_company_details`: the `team_members` key is present
iff `include_team` is true (`...(include_team && { team_members })`). -/
structure CompanyDetails where
  basic_info : CompanyBasicInfo
  founder : CompanyFounderInfo
  social_links : SocialLinks
  promotion_settings : PromotionSettings
  stats : CompanyStatsInfo
  team_members : Option (List TeamMember)
deriving DecidableEq

/-- Assembles the `get_company_details` payload from a company. -/
def companyDetails (c : Company) (include_team : Bool) : CompanyDetails :=
  ⟨⟨c.name, c.slug, c.category, c.shortDescription, c.detail, c.logo, c.banner,
      c.url, c.verificationStatus⟩,
    ⟨c.founderName, c.founderDetails, c.founderEmail, c.founderImage,
      c.founderFollowers, c.founderResponseRate⟩,
    c.socialLinks,
    c.promotionSettings,
    ⟨c.likes, c.views, c.followerPrice⟩,
    if include_team then some c.teamMembers else none⟩

/-- Payload of `get_event_details` (nested blocks flattened field by
field, in source order). -/
structure EventDetails where
  id : String
  title : String
  company : String
  category : String
  description : String
  venue : String
  city : String
  country : String
  dateStart : String
  dateEnd : String
  website : String
  featuredImage : String
  social_links : EventSocialLinks
  createdAt : String
  updatedAt : String
deriving DecidableEq

/-- Assembles the `get_event_details` payload from an event. -/
def eventDetails (e : Event) : EventDetails :=
  ⟨e._id, e.title, e.company, e.category, e.description, e.location, e.city,
    e.country, e.eventStartDate, e.eventEndDate, e.website, e.featuredImage,
    e.socialLinks, e.createdAt, e.updatedAt⟩

/-! ## Tool handlers -/

/-- Tool `get_company_details`: resolves via `getCompanyBySlug`, returns
an `isError` result `Company not found: ${identifier}` on `null`.
The `catch` branch is unreachable because `getCompanyBySlug` already
catches every client error. -/
def get_company_details (identifier : String) (include_team : Bool)
    (r : Fetched ApiResponse) : ToolResult CompanyDetails :=
  match getCompanyBySlug identifier r with
  | none => .errorResult ("Company not found: " ++ identifier)
  | some c => .ok (companyDetails c include_team)

/-- Tool `get_event_details`: resolves via `getEventById`, returns an
`isError` result `Event not found: ${event_id}` on `null`.  The `catch`
branch is unreachable because `getEventById` already catches every
client error. -/
def get_event_details (event_id : String) (r : Fetched EventsBody) :
    ToolResult EventDetails :=
  match getEventById event_id r with
  | none => .errorResult ("Event not found: " ++ event_id)
  | some e => .ok (eventDetails e)

/-- Tool `get_companies_by_category`: fetches via
`getCompaniesByCategory` (which catches every failure as `[]`), applies
`limit ? companies.slice(0, limit) : companies`, and maps to summaries;
the `catch` branch is unreachable. -/
def get_companies_by_category (category : String) (limit : Option Int)
    (r : Fetched ApiResponse) : ToolResult (List CompanySummary) :=
  let companies := getCompaniesByCategory category r
  let results := applyLimit limit companies
  .ok (results.map companySummary)

/-- Tool `get_events_by_category`: analogous to
`get_companies_by_category`. -/
def get_events_by_category (category : String) (limit : Option Int)
    (r : Fetched EventsBody) : ToolResult (List EventCategorySummary) :=
  let events := getEventsByCategory category r
  let results := applyLimit limit events
  .ok (results.map eventCategorySummary)

/-- Tool `get_upcoming_events`: fetches via `getUpcomingEvents`
(evaluated at `now`), applies the truncation, maps to summaries. -/
def get_upcoming_events (limit : Option Int) (now : Int)
    (r : Fetched EventsBody) : ToolResult (List EventSummary) :=
  let events := getUpcomingEvents now r
  let results := applyLimit limit events
  .ok (results.map eventSummary)

/-- Tool `get_events_by_location`: `if (!country && !city)` returns the
validation error before any client call (the result does not depend on
the fetch outcome); otherwise fetches via `getEventsByLocation`,
truncates and summarizes. -/
def get_events_by_location (country city : Option String)
    (limit : Option Int) (r : Fetched EventsBody) :
    ToolResult (List EventSummary) :=
  if !truthyStr? country && !truthyStr? city then
    .errorResult "Please provide either a country or city parameter"
  else
    let events := getEventsByLocation country city r
    let results := applyLimit limit events
    .ok (results.map eventSummary)

/-! ## Distinct sorted string sets

Handlers build aggregate sets with `new Set()`, adding a value only when
it is truthy (so `""` is never added), and render them with
`Array.from(set).sort()`.  Since the result is sorted, the insertion
order of the set is irrelevant: the value is the duplicate-free
non-empty entries in ascending order. -/

/-- `Array.from(set).sort()` for a set fed by truthy-guarded `add`
calls. -/
def distinctSortedStrings (xs : List String) : List String :=
  List.insertionSort (· ≤ ·) (xs.filter (fun s => s != "")).dedup

/-- The aggregate-set invariant: ascending, duplicate-free, and free of
empty strings. -/
def SortedDistinctNonempty (l : List String) : Prop :=
  l.Sorted (· ≤ ·) ∧ l.Nodup ∧ "" ∉ l

/-- Company category set computed by the `categories` resource and by
`get_directory_stats`. -/
def companyCategories (companies : List Company) : List String :=
  distinctSortedStrings (companies.map (fun c => c.category))

/-! ## Resource handlers -/

/-- Resource `blockza://categories`: on a client error returns the
`{error}` document; otherwise collects the (truthy-guarded) category set
only when `data.success && data.data`, so a non-success envelope yields
`{success: true, categories: []}`. -/
def categoriesResource (r : Fetched ApiResponse) :
    ResourceResult (List String) :=
  match getCompanies r with
  | .error m => .errorDoc ("Failed to fetch categories: " ++ m)
  | .ok data => .doc (if data.success then companyCategories data.data else [])

/-! ## Stats handlers -/

/-- Sum of `c.likes || 0` over the listing (`reduce`). -/
def totalLikes (companies : List Company) : Int :=
  companies.foldl (fun sum c => sum + c.likes) 0

/-- Sum of `c.views || 0` over the listing (`reduce`). -/
def totalViews (companies : List Company) : Int :=
  companies.foldl (fun sum c => sum + c.views) 0

/-- Payload of `get_directory_stats`.  The two `average_*` fields are
`(total / length).toFixed(2)` guarded by `length > 0 ? ... : 0`; the
decimal rendering of `toFixed` is abstracted to the exact rational
quotient. -/
structure DirectoryStats where
  total_companies : Nat
  verified_companies : Nat
  promoted_companies : Nat
  companies_with_affiliate_programs : Nat
  total_categories : Nat
  categories : List String
  total_likes : Int
  total_views : Int
  average_likes_per_company : ℚ
  average_views_per_company : ℚ
deriving DecidableEq

/-- Computes the `get_directory_stats` payload from the fetched
listing. -/
def directoryStats (companies : List Company) : DirectoryStats :=
  ⟨companies.length,
    (companies.filter (fun c => c.verificationStatus == "verified")).length,
    (companies.filter (fun c => c.isPromoted)).length,
    (companies.filter (fun c => c.promotionSettings.hasAffiliateProgram)).length,
    (companyCategories companies).length,
    companyCategories companies,
    totalLikes companies,
    totalViews companies,
    if 0 < companies.length then
      (totalLikes companies : ℚ) / (companies.length : ℚ)
    else 0,
    if 0 < companies.length then
      (totalViews companies : ℚ) / (companies.length : ℚ)
    else 0⟩

/-- Tool `get_directory_stats`: client error → `isError` result with the
original message embedded; `!data.success` → `isError` result; otherwise
the stats payload over `data.data || []`. -/
def get_directory_stats (r : Fetched ApiResponse) : ToolResult DirectoryStats :=
  match getCompanies r with
  | .error m => .errorResult ("Error getting directory statistics: " ++ m)
  | .ok data =>
    if data.success then .ok (directoryStats data.data)
    else .errorResult "Failed to get directory statistics"

/-- Payload of `get_events_stats`.  `past_events` is the JS subtraction
`events.length - upcomingEvents.length` (the two counts come from two
independent fetches, so it can be negative). -/
structure EventsStats where
  total_events : Nat
  upcoming_events : Nat
  past_events : Int
  total_categories : Nat
  categories : List String
  total_countries : Nat
  countries : List String
  total_cities : Nat
  cities : List String
  total_companies : Nat
  companies : List String
deriving DecidableEq

/-- Computes the `get_events_stats` payload from the full listing and
the separately fetched upcoming listing. -/
def eventsStats (events upcoming : List Event) : EventsStats :=
  ⟨events.length,
    upcoming.length,
    (events.length : Int) - (upcoming.length : Int),
    (distinctSortedStrings (events.map (fun e => e.category))).length,
    distinctSortedStrings (events.map (fun e => e.category)),
    (distinctSortedStrings (events.map (fun e => e.country))).length,
    distinctSortedStrings (events.map (fun e => e.country)),
    (distinctSortedStrings (events.map (fun e => e.city))).length,
    distinctSortedStrings (events.map (fun e => e.city)),
    (distinctSortedStrings (events.map (fun e => e.company))).length,
    distinctSortedStrings (events.map (fun e => e.company))⟩

/-- Tool `get_events_stats`: `getEvents()` followed by
`getUpcomingEvents()` — two fetches, hence two fetch outcomes.  Only the
first can throw (`getUpcomingEvents` catches internally). -/
def get_events_stats (now : Int) (r r2 : Fetched EventsBody) :
    ToolResult EventsStats :=
  match getEvents r with
  | .error m => .errorResult ("Error getting events statistics: " ++ m)
  | .ok events => .ok (eventsStats events (getUpcomingEvents now r2))

/-! ## Prompt `compare_companies` -/

/-- Engagement key of the comparison sort:
`(b.views + b.likes) - (a.views + a.likes)` sorts descending by
`views + likes`. -/
def engagement (c : Company) : Int := c.views + c.likes

/-- Ranking relation of the comparison sort: `a` sorts no later than `b`
iff its engagement is at least that of `b`. -/
def engGe (a b : Company) : Prop := engagement b ≤ engagement a

instance : DecidableRel engGe := fun a b =>
  inferInstanceAs (Decidable (engagement b ≤ engagement a))

instance : IsTotal Company engGe :=
  ⟨fun a b => (le_total (engagement b) (engagement a)).imp id id⟩

instance : IsTrans Company engGe :=
  ⟨fun _ _ _ hab hbc => le_trans hbc hab⟩

/-- `companies.sort((a, b) => (b.views + b.likes) - (a.views + a.likes))`:
a stable descending sort by engagement (insertion sort keeps the earlier
original element first on ties, matching the stable JS `Array.sort`). -/
def sortByEngagementDesc (companies : List Company) : List Company :=
  companies.insertionSort engGe

/-- `const numLimit = limit ? parseInt(limit, 10) : 5` after the
destructuring default `limit = "5"`; `none` models `NaN`. -/
def compareCompaniesNumLimit (limit : Option String) : Option Int :=
  let limitArg := limit.getD "5"
  if !limitArg.isEmpty then jsParseInt10 limitArg else some 5

/-- `xs.slice(0, n)` where `n` may be `NaN` (then the end index is
coerced to `0` and the slice is empty). -/
def jsSlice0OfParse (n : Option Int) (xs : List α) : List α :=
  match n with
  | none => []
  | some k => jsSlice0 k xs

/-- The `topCompanies` intermediate of the `compare_companies`
handler. -/
def compareCompaniesTop (limit : Option String) (companies : List Company) :
    List Company :=
  jsSlice0OfParse (compareCompaniesNumLimit limit)
    (sortByEngagementDesc companies)

/-- Per-company record interpolated into the comparison template
(`companyData`). -/
structure CompareCompanyData where
  name : String
  description : String
  founder : String
  verification : String
  likes : Int
  views : Int
  hasAffiliateProgram : Bool
  teamSize : Nat
  url : String
deriving DecidableEq

/-- Projection of a `Company` to its `companyData` record. -/
def compareCompanyData (c : Company) : CompareCompanyData :=
  ⟨c.name, c.shortDescription, c.founderName, c.verificationStatus, c.likes,
    c.views, c.promotionSettings.hasAffiliateProgram, c.teamMembers.length,
    c.url⟩

/-- Result of the `compare_companies` prompt: each constructor
corresponds to one of the three fixed message templates, carrying
exactly the data interpolated into it. -/
inductive ComparePromptResult where
  | missingCategory
  | noneFound (category : String)
  | comparison (category : String) (included : List CompareCompanyData)
deriving DecidableEq

/-- Prompt `compare_companies`: `if (!category)` → guidance message;
fetch candidates via `getCompaniesByCategory`; sort descending by
engagement and `slice(0, numLimit)`; `topCompanies.length === 0` →
no-companies-found guidance message; otherwise the comparison template
over `companyData`. -/
def compare_companies (category : String) (limit : Option String)
    (r : Fetched ApiResponse) : ComparePromptResult :=
  if category = "" then .missingCategory
  else
    let companies := getCompaniesByCategory category r
    let top := compareCompaniesTop limit companies
    if top.length = 0 then .noneFound category
    else .comparison category (top.map compareCompanyData)

/-! ## Concrete fixtures (used by witnesses) -/

/-- Fixture social links. -/
def sampleSocial : SocialLinks := ⟨"", "", "", "", ""⟩

/-- Fixture promotion settings. -/
def samplePromo : PromotionSettings := ⟨true, false⟩

/-- Fixture company with slug `acme`, engagement `3 + 7 = 10`. -/
def sampleCompany : Company :=
  ⟨"id1", "Acme", "acme", "short", "detail", "AI", "logo", "banner", "Jane",
    "fd", "jane@acme.io", "img", "verified", "https://acme.io", true, 3, 7,
    sampleSocial, samplePromo, [], "2024-01-01", "2024-01-02", 0, 10, 50⟩

/-- Fixture company with slug `beta`, engagement `49 + 50 = 99`. -/
def sampleCompanyB : Company :=
  ⟨"id2", "Beta", "beta", "short2", "detail2", "AI", "logo2", "banner2",
    "Ada", "fd2", "ada@beta.io", "img2", "pending", "https://beta.io", false,
    49, 50, sampleSocial, samplePromo, [], "2024-02-01", "2024-02-02", 0, 2, 9⟩

/-- Fixture event starting on 2030-01-01. -/
def sampleEvent : Event :=
  ⟨"ev1", "Summit", "Acme", "desc", "Hall 1", "Germany", "Berlin",
    "2030-01-01", "2030-01-02", "Conference", "https://ev.io", "img",
    ⟨"", "", "", ""⟩, "2024-01-01", "2024-01-02", 0⟩

/-! ## Claim theorems -/

/-- Claim C1: over a returned envelope, `getCompanyBySlug slug` issues a
search-filtered listing (`search = slug`); if some returned record has
slug exactly `slug` it returns a record with that exact slug; if the
returned list is non-empty with no exact match it returns the first
record; and if the search yields nothing it returns `none`, not an
error. -/
theorem getCompanyBySlug_exact_match (slug : String) (resp : ApiResponse) :
    (resp.success = true →
      ((∃ c ∈ resp.data, c.slug = slug) →
        ∃ c, getCompanyBySlug slug (.body resp) = some c ∧ c.slug = slug) ∧
      (resp.data ≠ [] → (∀ c ∈ resp.data, c.slug ≠ slug) →
        getCompanyBySlug slug (.body resp) = resp.data.head?)) ∧
    (resp.data = [] → getCompanyBySlug slug (.body resp) = none) ∧
    getCompanyBySlugQuery slug = companiesQuery ⟨none, none, some slug, none⟩ := by
  refine ⟨fun hs => ⟨?_, ?_⟩, ?_, rfl⟩
  · rintro ⟨c, hc, hcs⟩
    have hlen : 0 < resp.data.length := List.length_pos_of_mem hc
    have hfind : (resp.data.find? (fun x => x.slug == slug)).isSome :=
      List.find?_isSome.2 ⟨c, hc, by simp [hcs]⟩
    obtain ⟨c', hc'⟩ := Option.isSome_iff_exists.1 hfind
    refine ⟨c', ?_, ?_⟩
    · simp only [getCompanyBySlug, getCompanies]
      rw [if_pos ⟨hs, hlen⟩, hc']
    · have := List.find?_some hc'
      simpa using this
  · intro hne hnone
    have hlen : 0 < resp.data.length := List.length_pos.2 hne
    have hfind : resp.data.find? (fun x => x.slug == slug) = none :=
      List.find?_eq_none.2 (fun x hx => by simpa using hnone x hx)
    simp only [getCompanyBySlug, getCompanies]
    rw [if_pos ⟨hs, hlen⟩, hfind]
  · intro h
    simp only [getCompanyBySlug, getCompanies]
    rw [if_neg]
    rintro ⟨-, hlen⟩
    rw [h] at hlen
    simp at hlen

/-- Witness for C1: on a concrete envelope containing the slug `acme`,
the lookup returns a record whose slug is exactly `acme`. -/
theorem getCompanyBySlug_exact_match_witness :
    ∃ c, getCompanyBySlug "acme" (.body ⟨true, [sampleCompany]⟩) = some c
      ∧ c.slug = "acme" :=
  ((getCompanyBySlug_exact_match "acme" ⟨true, [sampleCompany]⟩).1 rfl).1
    ⟨sampleCompany, List.mem_singleton_self _, rfl⟩

/-- Claim C2, counterexample: a well-formed JSON body that is not an
array is NOT a failure of the events list call — `getEvents` silently
returns it as the empty collection (`Array.isArray(data) ? data : []`),
contradicting the claim that a non-conforming envelope always fails with
an upstream error. -/
theorem getEvents_nonArray_is_silently_empty :
    getEvents (.body .nonArray) = Except.ok [] := rfl

/-- Claim C2 as amended: a malformed JSON body, a network failure or a
non-2xx status makes both list calls fail with an upstream error
carrying the diagnostic message; but a well-formed non-array events body
is coerced to the empty collection (a success), and a companies envelope
is returned unchanged — its `success` flag is left for the caller to
interpret, not turned into a client-level error. -/
theorem list_call_error_surfacing (m statusText : String) (status : Nat)
    (resp : ApiResponse) (events : List Event) :
    getCompanies (.jsonError m) = .error m ∧
    getCompanies (.netError m) = .error m ∧
    getCompanies (.httpError status statusText)
      = .error ("HTTP " ++ toString status ++ ": " ++ statusText) ∧
    getCompanies (.body resp) = .ok resp ∧
    getEvents (.jsonError m) = .error m ∧
    getEvents (.netError m) = .error m ∧
    getEvents (.httpError status statusText)
      = .error ("HTTP " ++ toString status ++ ": " ++ statusText) ∧
    getEvents (.body (.arr events)) = .ok events ∧
    getEvents (.body .nonArray) = .ok ([] : List Event) :=
  ⟨rfl, rfl, rfl, rfl, rfl, rfl, rfl, rfl, rfl⟩

/-- Claim C3, counterexample: an upstream HTTP 500 during
`get_company_details` produces exactly the same not-found error result
as a successful upstream query in which the entity is absent — the two
failure kinds are conflated, because `getCompanyBySlug` catches the
upstream error and returns `null`. -/
theorem get_company_details_conflates_failures :
    get_company_details "acme" false (.httpError 500 "Internal Server Error")
        = .errorResult "Company not found: acme" ∧
    get_company_details "acme" false (.body ⟨true, []⟩)
        = .errorResult "Company not found: acme" := by
  constructor <;> decide

/-- Claim C3 as amended: an entity absent after a successful upstream
query yields the not-found error result, and a found entity yields the
detail payload; but an upstream failure is swallowed by the lookup
helpers (`getCompanyBySlug` / `getEventById` catch it and return
`null`), so the detail handlers report the same not-found error result
for upstream failures as for genuinely absent entities — the two
failure kinds are not distinguished. -/
theorem detail_lookup_not_found (identifier : String) (inc : Bool)
    (r : Fetched ApiResponse) (re : Fetched EventsBody) :
    (getCompanyBySlug identifier r = none →
      get_company_details identifier inc r
        = .errorResult ("Company not found: " ++ identifier)) ∧
    (fetchFailed r = true → getCompanyBySlug identifier r = none) ∧
    (∀ c, getCompanyBySlug identifier r = some c →
      get_company_details identifier inc r = .ok (companyDetails c inc)) ∧
    (getEventById identifier re = none →
      get_event_details identifier re
        = .errorResult ("Event not found: " ++ identifier)) ∧
    (fetchFailed re = true → getEventById identifier re = none) := by
  refine ⟨?_, ?_, ?_, ?_, ?_⟩
  · intro h; simp [get_company_details, h]
  · intro h
    cases r with
    | netError m => rfl
    | httpError s t => rfl
    | jsonError m => rfl
    | body b => simp [fetchFailed] at h
  · intro c h; simp [get_company_details, h]
  · intro h; simp [get_event_details, h]
  · intro h
    cases re with
    | netError m => rfl
    | httpError s t => rfl
    | jsonError m => rfl
    | body b => simp [fetchFailed] at h

/-- Witness for the amended C3: concrete upstream failures make both
lookups resolve to `null`, and the company handler then reports the
not-found error result. -/
theorem detail_lookup_not_found_witness :
    getCompanyBySlug "acme" (.netError "boom") = none ∧
    getEventById "ev1" (.netError "boom") = none ∧
    get_company_details "acme" false (.netError "boom")
      = .errorResult ("Company not found: " ++ "acme") :=
  ⟨(detail_lookup_not_found "acme" false (.netError "boom")
      (.netError "boom")).2.1 rfl,
    (detail_lookup_not_found "ev1" false (.netError "boom")
      (.netError "boom")).2.2.2.2 rfl,
    (detail_lookup_not_found "acme" false (.netError "boom")
      (.netError "boom")).1
      ((detail_lookup_not_found "acme" false (.netError "boom")
        (.netError "boom")).2.1 rfl)⟩

/-- Claim C4: at evaluation time `T`, over a fetched event listing,
`getUpcomingEvents` returns exactly the sublist of events whose parsed
start date is strictly after `T` (events at or before `T`, and events
with unparseable dates, are excluded), preserving the original order. -/
theorem getUpcomingEvents_filter (T : Int) (events : List Event) :
    getUpcomingEvents T (.body (.arr events))
        = events.filter (fun e => dateAfter e.eventStartDate T) ∧
    (getUpcomingEvents T (.body (.arr events))).Sublist events ∧
    (∀ e, e ∈ getUpcomingEvents T (.body (.arr events)) ↔
      e ∈ events ∧ dateAfter e.eventStartDate T = true) := by
  refine ⟨rfl, List.filter_sublist events, ?_⟩
  intro e
  exact List.mem_filter

/-- Witness for C4: at `T = 0` the fixture event (starting 2030-01-01)
is retained. -/
theorem getUpcomingEvents_filter_witness :
    sampleEvent ∈ getUpcomingEvents 0 (.body (.arr [sampleEvent])) :=
  ((getUpcomingEvents_filter 0 [sampleEvent]).2.2 sampleEvent).2
    ⟨List.mem_singleton_self _, by decide⟩

/-- Claim C5: `get_directory_stats` computes each average engagement
statistic as sum divided by count with the count-zero case guarded: on
an empty fetched collection both reported averages are exactly `0`
(total functions — no NaN, infinity or error is possible). -/
theorem directory_stats_average_guard (resp : ApiResponse)
    (companies : List Company) :
    (resp.success = true →
      get_directory_stats (.body resp) = .ok (directoryStats resp.data)) ∧
    ((directoryStats companies).average_likes_per_company
        = if 0 < companies.length then
            (totalLikes companies : ℚ) / (companies.length : ℚ)
          else 0) ∧
    ((directoryStats companies).average_views_per_company
        = if 0 < companies.length then
            (totalViews companies : ℚ) / (companies.length : ℚ)
          else 0) ∧
    (companies = [] →
      (directoryStats companies).average_likes_per_company = 0 ∧
      (directoryStats companies).average_views_per_company = 0) := by
  refine ⟨fun hs => ?_, rfl, rfl, fun h => ?_⟩
  · simp [get_directory_stats, getCompanies, hs]
  · subst h
    exact ⟨rfl, rfl⟩

/-- Witness for C5: on a successful envelope with an empty listing, the
handler reports both averages as `0`. -/
theorem directory_stats_average_guard_witness :
    get_directory_stats (.body ⟨true, []⟩) = .ok (directoryStats []) ∧
    (directoryStats []).average_likes_per_company = 0 ∧
    (directoryStats []).average_views_per_company = 0 :=
  ⟨(directory_stats_average_guard ⟨true, []⟩ []).1 rfl,
    (directory_stats_average_guard ⟨true, []⟩ []).2.2.2 rfl⟩

/-- Claim C6: when both `country` and `city` are absent,
`get_events_by_location` returns the validation error result
instructing the caller to supply one of the two, and the result does
not depend on the fetch outcome — no upstream call is consulted. -/
theorem get_events_by_location_validation (limit : Option Int)
    (r r2 : Fetched EventsBody) :
    get_events_by_location none none limit r
        = .errorResult "Please provide either a country or city parameter" ∧
    get_events_by_location none none limit r
        = get_events_by_location none none limit r2 :=
  ⟨rfl, rfl⟩

/-- Claim C7: `getCompaniesByCategory` issues the category-filtered list
call and degrades every upstream failure — network error, non-2xx
status, malformed JSON, or an unsuccessful envelope — to the empty
sequence instead of propagating an error; a successful envelope yields
its records. -/
theorem getCompaniesByCategory_lenient (category m statusText : String)
    (status : Nat) (resp : ApiResponse) :
    getCompaniesByCategory category (.netError m) = [] ∧
    getCompaniesByCategory category (.httpError status statusText) = [] ∧
    getCompaniesByCategory category (.jsonError m) = [] ∧
    getCompaniesByCategory category (.body resp)
        = (if resp.success then resp.data else []) ∧
    (resp.success = false →
      getCompaniesByCategory category (.body resp) = []) ∧
    getCompaniesByCategoryQuery category
        = companiesQuery ⟨none, some category, none, none⟩ := by
  refine ⟨rfl, rfl, rfl, rfl, fun h => ?_, rfl⟩
  simp [getCompaniesByCategory, getCompanies, h]

/-- Witness for C7: a concrete unsuccessful envelope yields the empty
sequence. -/
theorem getCompaniesByCategory_lenient_witness :
    getCompaniesByCategory "AI" (.body ⟨false, [sampleCompany]⟩) = [] :=
  (getCompaniesByCategory_lenient "AI" "m" "t" 500
    ⟨false, [sampleCompany]⟩).2.2.2.2.1 rfl

/-- Every output of `distinctSortedStrings` satisfies the aggregate-set
invariant. -/
theorem distinctSortedStrings_spec (xs : List String) :
    SortedDistinctNonempty (distinctSortedStrings xs) := by
  refine ⟨List.sorted_insertionSort _ _, ?_, ?_⟩
  · exact ((List.perm_insertionSort _ _).nodup_iff).2 (List.nodup_dedup _)
  · intro h
    have h1 : ("" : String) ∈ (xs.filter (fun s => s != "")).dedup :=
      ((List.perm_insertionSort _ _).mem_iff).1 h
    have h3 := (List.mem_filter.1 (List.mem_dedup.1 h1)).2
    simp at h3

/-- Claim C8: every category/country/city/company set produced by the
`categories` resource and the stats handlers is sorted ascending, free
of duplicates, and free of empty-string entries. -/
theorem aggregate_sets_sorted (events upcoming : List Event)
    (companies : List Company) (resp : ApiResponse) (now : Int)
    (r2 : Fetched EventsBody) :
    SortedDistinctNonempty (eventsStats events upcoming).categories ∧
    SortedDistinctNonempty (eventsStats events upcoming).countries ∧
    SortedDistinctNonempty (eventsStats events upcoming).cities ∧
    SortedDistinctNonempty (eventsStats events upcoming).companies ∧
    SortedDistinctNonempty (directoryStats companies).categories ∧
    get_events_stats now (.body (.arr events)) r2
        = .ok (eventsStats events (getUpcomingEvents now r2)) ∧
    categoriesResource (.body resp)
        = .doc (if resp.success then companyCategories resp.data else []) ∧
    SortedDistinctNonempty
      (if resp.success then companyCategories resp.data else []) := by
  refine ⟨distinctSortedStrings_spec _, distinctSortedStrings_spec _,
    distinctSortedStrings_spec _, distinctSortedStrings_spec _,
    distinctSortedStrings_spec _, rfl, rfl, ?_⟩
  cases hs : resp.success with
  | false => simp [SortedDistinctNonempty]
  | true => exact distinctSortedStrings_spec _

/-- `slice(0, n)` always yields a prefix-or-shorter sublist. -/
theorem jsSlice0_sublist (n : Int) (xs : List α) :
    (jsSlice0 n xs).Sublist xs := by
  unfold jsSlice0
  split <;> exact List.take_sublist _ _

/-- Claim C9: in a generated `compare_companies` comparison the included
companies are the fetched candidates ranked descending by
`views + likes` and truncated to the caller-specified count; the count
defaults to `5` when the `limit` argument is absent, and a non-empty
candidate set under the default generates a comparison (not the
fallback). -/
theorem compare_companies_ranking (category : String) (limit : Option String)
    (r : Fetched ApiResponse) (companies : List Company) :
    compareCompaniesNumLimit none = some 5 ∧
    (sortByEngagementDesc companies).Perm companies ∧
    (sortByEngagementDesc companies).Sorted engGe ∧
    (∀ k : Int, compareCompaniesNumLimit limit = some k →
      compareCompaniesTop limit companies
        = jsSlice0 k (sortByEngagementDesc companies)) ∧
    (compareCompaniesTop limit companies).Sublist
      (sortByEngagementDesc companies) ∧
    (compareCompaniesTop limit companies).Sorted engGe ∧
    compareCompaniesTop none companies
      = (sortByEngagementDesc companies).take 5 ∧
    (companies ≠ [] → compareCompaniesTop none companies ≠ []) ∧
    (category ≠ "" →
      compareCompaniesTop limit (getCompaniesByCategory category r) ≠ [] →
      compare_companies category limit r
        = .comparison category
            ((compareCompaniesTop limit
              (getCompaniesByCategory category r)).map compareCompanyData)) := by
  have h5 : compareCompaniesNumLimit none = some 5 := by decide
  have hsub : (compareCompaniesTop limit companies).Sublist
      (sortByEngagementDesc companies) := by
    unfold compareCompaniesTop jsSlice0OfParse
    cases compareCompaniesNumLimit limit with
    | none => exact List.nil_sublist _
    | some k => exact jsSlice0_sublist k _
  have hsorted : (sortByEngagementDesc companies).Sorted engGe :=
    List.sorted_insertionSort engGe companies
  have htake : compareCompaniesTop none companies
      = (sortByEngagementDesc companies).take 5 := by
    unfold compareCompaniesTop
    rw [h5]
    simp [jsSlice0OfParse, jsSlice0]
  refine ⟨h5, List.perm_insertionSort engGe companies, hsorted, ?_, hsub,
    hsorted.sublist hsub, htake, ?_, ?_⟩
  · intro k hk
    unfold compareCompaniesTop
    rw [hk]
    rfl
  · intro hne h
    rw [htake] at h
    have hlen := congrArg List.length h
    simp [List.length_take] at hlen
    have hperm : (sortByEngagementDesc companies).Perm companies :=
      List.perm_insertionSort engGe companies
    rw [hlen] at hperm
    exact hne hperm.symm.eq_nil
  · intro hcat hne
    simp only [compare_companies, if_neg hcat]
    rw [if_neg (by simpa [List.length_eq_zero] using hne)]

/-- Witness for C9: with the default limit and two fetched candidates,
the prompt generates a comparison over the truncated descending
ranking. -/
theorem compare_companies_ranking_witness :
    compare_companies "AI" none (.body ⟨true, [sampleCompany, sampleCompanyB]⟩)
      = .comparison "AI"
          ((compareCompaniesTop none
            (getCompaniesByCategory "AI"
              (.body ⟨true, [sampleCompany, sampleCompanyB]⟩))).map
            compareCompanyData) :=
  (compare_companies_ranking "AI" none
    (.body ⟨true, [sampleCompany, sampleCompanyB]⟩) []).2.2.2.2.2.2.2.2
    (by decide) (by decide)

/-- A `limit` pair appears in a companies query only when the `limit`
parameter is truthy. -/
theorem companiesQuery_limit_truthy (p : CompaniesParams) :
    ∀ kv ∈ companiesQuery p, kv.1 = "limit" → truthyInt? p.limit = true := by
  intro kv hkv
  simp only [companiesQuery, List.mem_append] at hkv
  rcases hkv with ((h | h) | h) | h
  · split at h <;> simp_all
  · split at h <;> simp_all
  · split at h <;> simp_all
  · split at h <;> simp_all

/-- A `limit` pair appears in an events query only when the `limit`
parameter is truthy. -/
theorem eventsQuery_limit_truthy (p : EventsParams) :
    ∀ kv ∈ eventsQuery p, kv.1 = "limit" → truthyInt? p.limit = true := by
  intro kv hkv
  simp only [eventsQuery, List.mem_append] at hkv
  rcases hkv with ((((h | h) | h) | h) | h) | h
  · split at h <;> simp_all
  · split at h <;> simp_all
  · split at h <;> simp_all
  · split at h <;> simp_all
  · split at h <;> simp_all
  · split at h <;> simp_all

/-- Claim C10: a `limit` of `0` is falsy, so the handler truncation
branch is skipped — `get_companies_by_category`, `get_events_by_category`
and `get_upcoming_events` return all fetched records, exactly as when
`limit` is absent — and both clients omit the `limit` query parameter
entirely when it is `0`. -/
theorem limit_zero_returns_all (category : String)
    (r : Fetched ApiResponse) (re : Fetched EventsBody) (now : Int)
    (cs : List Company) (es : List Event)
    (c s : Option String) (v : Option Bool)
    (ec esch eco eci : Option String) (eu : Option Bool) :
    applyLimit (some 0) cs = cs ∧
    applyLimit (some 0) es = es ∧
    get_companies_by_category category (some 0) r
        = get_companies_by_category category none r ∧
    get_companies_by_category category (some 0) r
        = .ok ((getCompaniesByCategory category r).map companySummary) ∧
    get_events_by_category category (some 0) re
        = .ok ((getEventsByCategory category re).map eventCategorySummary) ∧
    get_upcoming_events (some 0) now re
        = .ok ((getUpcomingEvents now re).map eventSummary) ∧
    "limit" ∉ (companiesQuery ⟨some 0, c, s, v⟩).map Prod.fst ∧
    "limit" ∉ (eventsQuery ⟨some 0, ec, esch, eco, eci, eu⟩).map Prod.fst := by
  refine ⟨rfl, rfl, rfl, rfl, rfl, rfl, ?_, ?_⟩
  · intro h
    rw [List.mem_map] at h
    obtain ⟨kv, hmem, hk⟩ := h
    have := companiesQuery_limit_truthy _ kv hmem hk
    simp [truthyInt?] at this
  · intro h
    rw [List.mem_map] at h
    obtain ⟨kv, hmem, hk⟩ := h
    have := eventsQuery_limit_truthy _ kv hmem hk
    simp [truthyInt?] at this

end Blockza
